import Mathlib

/-!
Shallow embedding of `src/roadmail/mail.py` (RoadMail, email sending for
BlackRoad) and verification of its specification claims.

Modelling conventions:
* Python strings are Lean `String`; byte content is `List Nat`.
* Python `datetime` timestamps are `Nat`; each call to `datetime.now()` is an
  explicit input of the embedded function, and clock monotonicity is an
  explicit hypothesis where a claim needs it.
* `uuid.uuid4()`-derived identifiers are explicit inputs (`freshId`,
  `trackingId`); their uniqueness is an explicit hypothesis where needed.
* Python `dict` (insertion ordered) is `List (key × value)` with
  `List.lookup` for `get` and `dictInsert` for `d[k] = v`.
* Raising an exception is `Except.error` carrying `str(e)`; the transport
  `send` returns `Except String Bool`.
* Side effects visible to callers (hook invocations, transport calls) are
  recorded in an explicit trace; `logger` output is not observable.
-/

namespace RoadMail

/-- EmailStatus enum from mail.py lines 24-32. -/
inductive EmailStatus where
  | pending
  | sending
  | sent
  | failed
  | bounced
  | delivered
  | opened
  | clicked
deriving DecidableEq, Repr

/-- Attachment dataclass from mail.py lines 35-39 (`content: bytes` is a list
of byte values). -/
structure Attachment where
  filename : String
  content : List Nat
  content_type : String := "application/octet-stream"
deriving DecidableEq, Repr

/-- EmailAddress dataclass from mail.py lines 42-50. -/
structure EmailAddress where
  email : String
  name : String := ""
deriving DecidableEq, Repr

/-- String rendering of an address, mail.py lines 47-50. -/
def EmailAddress.toStr (a : EmailAddress) : String :=
  if a.name ≠ "" then a.name ++ " <" ++ a.email ++ ">" else a.email

/-- Email dataclass from mail.py lines 53-71: the Message entity.
`created_at` holds the `datetime.now()` value supplied at construction;
`metadata` is a free-form string map. -/
structure Email where
  id : String
  «to» : List EmailAddress
  subject : String
  body_text : String := ""
  body_html : String := ""
  from_addr : Option EmailAddress := none
  reply_to : Option EmailAddress := none
  cc : List EmailAddress := []
  bcc : List EmailAddress := []
  attachments : List Attachment := []
  headers : List (String × String) := []
  status : EmailStatus := EmailStatus.pending
  created_at : Nat := 0
  sent_at : Option Nat := none
  error : Option String := none
  tracking_id : Option String := none
  metadata : List (String × String) := []
deriving DecidableEq, Repr

/-- Python `str.replace(pat, rep)` on character lists for a non-empty
pattern: replaces every non-overlapping occurrence, scanning left to right.
Recursion is driven by a fuel argument so that the definition is structural
(and hence kernel-computable); `strReplace` below supplies fuel equal to the
length of the string, which is always enough since each step consumes at
least one character. The source only ever calls `replace` with patterns of
the form `\x7b\x7bkey\x7d\x7d`, which are non-empty. -/
def strReplaceAux (pat rep : List Char) : Nat → List Char → List Char
  | _, [] => []
  | 0, s => s
  | fuel + 1, c :: rest =>
      if (c :: rest).take pat.length = pat then
        rep ++ strReplaceAux pat rep fuel ((c :: rest).drop pat.length)
      else
        c :: strReplaceAux pat rep fuel rest

/-- Python `str.replace` on character lists (non-empty pattern). -/
def strReplace (pat rep s : List Char) : List Char :=
  strReplaceAux pat rep s.length s

/-- Python `str.replace` lifted to `String`. -/
def pyReplace (s pat rep : String) : String :=
  String.mk (strReplace pat.data rep.data s.data)

/-- EmailTemplate dataclass from mail.py lines 74-81. -/
structure EmailTemplate where
  id : String
  name : String
  subject : String
  body_text : String := ""
  body_html : String := ""
  «variables» : List String := []
deriving DecidableEq, Repr

/-- Placeholder string `\x7b\x7bkey\x7d\x7d` built in mail.py line 89. -/
def placeholder (key : String) : String :=
  "\x7b\x7b" ++ key ++ "\x7d\x7d"

/-- EmailTemplate.render, mail.py lines 83-94: iterates over the context in
insertion order, replacing every occurrence of the placeholder in subject,
text body and HTML body; context values are already stringified. -/
def EmailTemplate.render (t : EmailTemplate) : List (String × String) → String × String × String
  | [] => (t.subject, t.body_text, t.body_html)
  | (key, value) :: rest =>
      EmailTemplate.render
        { t with
          subject := pyReplace t.subject (placeholder key) value
          body_text := pyReplace t.body_text (placeholder key) value
          body_html := pyReplace t.body_html (placeholder key) value }
        rest

/-- SMTPTransport constructor state, mail.py lines 97-103. -/
structure SMTPTransport where
  host : String
  port : Nat
  username : String := ""
  password : String := ""
  use_tls : Bool := true
deriving DecidableEq, Repr

/-- Envelope recipient list submitted to the SMTP server in
SMTPTransport.send, mail.py line 138:
`recipients = [addr.email for addr in email.to + email.cc + email.bcc]`.
The surrounding MIME construction and the SMTP network session are I/O and
are not modelled; this is the exact list passed to `server.sendmail`. -/
def SMTPTransport.envelopeRecipients (_t : SMTPTransport) (email : Email) : List String :=
  (email.«to» ++ email.cc ++ email.bcc).map (fun a => a.email)

/-- Behaviour of MockTransport.send, mail.py lines 146-153: always succeeds.
Its recording of received emails corresponds to the `transportCall` trace
events emitted by the embedded `Mailer.send`. -/
def MockTransport.sendBehavior : Email → Except String Bool :=
  fun _ => Except.ok true

/-- Caller-supplied lifecycle hook: an identifier (so that invocations are
observable in the trace) together with the callable's behaviour, which may
raise (`Except.error`); mail.py catches and logs such errors. -/
structure Hook where
  hid : Nat
  run : Email → Except String Unit

/-- Observable side effects of the send pipeline: hook invocations (with the
email value passed to the handler) and transport calls. -/
inductive TraceEvent where
  | hookCall (event : String) (hid : Nat) (email : Email)
  | transportCall (email : Email)
deriving DecidableEq, Repr

/-- Python dict assignment `d[k] = v` on an insertion-ordered association
list: overwrites in place if the key is present, else appends. -/
def dictInsert {α : Type} (d : List (String × α)) (k : String) (v : α) :
    List (String × α) :=
  if d.any (fun p => p.1 = k) then
    d.map (fun p => if p.1 = k then (k, v) else p)
  else
    d ++ [(k, v)]

/-- Mailer state, mail.py lines 156-164. The duck-typed transport object is
modelled by its behaviour on one send: success (the returned Bool is ignored
by Mailer.send) or a raised exception description. -/
structure Mailer where
  transport : Email → Except String Bool
  default_from : EmailAddress
  templates : List (String × EmailTemplate)
  sent_emails : List (String × Email)
  hooks : List (String × List Hook)

/-- Mailer.__init__, mail.py lines 157-164; `transport or MockTransport()`
and `default_from or EmailAddress("noreply@example.com")` are resolved by
the caller of this constructor. -/
def Mailer.init (transport : Email → Except String Bool)
    (default_from : EmailAddress) : Mailer :=
  { transport
    default_from
    templates := []
    sent_emails := []
    hooks := [("before_send", []), ("after_send", []), ("on_error", [])] }

/-- Mailer.add_hook, mail.py lines 166-168:
`if event in self.hooks: self.hooks[event].append(handler)`. -/
def Mailer.add_hook (m : Mailer) (event : String) (handler : Hook) : Mailer :=
  if (m.hooks.lookup event).isSome then
    { m with
      hooks := m.hooks.map (fun p =>
        if p.1 = event then (p.1, p.2 ++ [handler]) else p) }
  else
    m

/-- Lookup `self.hooks.get(event, [])`, mail.py line 171. -/
def Mailer.hooksFor (m : Mailer) (event : String) : List Hook :=
  (m.hooks.lookup event).getD []

/-- Mailer._emit, mail.py lines 170-175: calls every handler registered for
the event, in registration order, with the email; a handler's exception is
caught and logged (its result is discarded), so every handler runs. Returns
the trace of hook invocations. -/
def Mailer.emit (m : Mailer) (event : String) (email : Email) : List TraceEvent :=
  (m.hooksFor event).map (fun h =>
    let _r := h.run email
    TraceEvent.hookCall event h.hid email)

/-- Mailer.register_template, mail.py lines 177-178. -/
def Mailer.register_template (m : Mailer) (template : EmailTemplate) : Mailer :=
  { m with templates := dictInsert m.templates template.id template }

/-- Keyword arguments accepted by Mailer.send via `**kwargs`, mail.py lines
180-192: `from_addr` is extracted with `kwargs.get`, the rest are spread
into the Email constructor. -/
structure SendKwargs where
  from_addr : Option EmailAddress := none
  reply_to : Option EmailAddress := none
  cc : List EmailAddress := []
  bcc : List EmailAddress := []
  attachments : List Attachment := []
  headers : List (String × String) := []
  metadata : List (String × String) := []
deriving DecidableEq, Repr

/-- An element of the `to` argument of Mailer.send: either a bare string or
an EmailAddress (mail.py line 181 accepts both). -/
inductive ToArg where
  | str (s : String)
  | addr (a : EmailAddress)
deriving DecidableEq, Repr

/-- Normalisation of one recipient, mail.py line 181:
`EmailAddress(email=addr) if isinstance(addr, str) else addr`. -/
def normalizeRecipient : ToArg → EmailAddress
  | ToArg.str s => { email := s }
  | ToArg.addr a => a

/-- Construction of the Email record inside Mailer.send, mail.py lines
181-192. `freshId` and `trackingId` stand for the two `uuid.uuid4()` draws
and `tCreate` for the `datetime.now()` taken by the dataclass default. -/
def Mailer.buildEmail (m : Mailer) (toArgs : List ToArg)
    (subject body_text body_html : String) (kwargs : SendKwargs)
    (freshId trackingId : String) (tCreate : Nat) : Email :=
  { id := freshId
    «to» := toArgs.map normalizeRecipient
    subject
    body_text
    body_html
    from_addr := some (kwargs.from_addr.getD m.default_from)
    reply_to := kwargs.reply_to
    cc := kwargs.cc
    bcc := kwargs.bcc
    attachments := kwargs.attachments
    headers := kwargs.headers
    status := EmailStatus.pending
    created_at := tCreate
    sent_at := none
    error := none
    tracking_id := some trackingId
    metadata := kwargs.metadata }

/-- Result of one Mailer.send call: the updated mailer, the returned Email
and the trace of observable side effects. -/
structure SendResult where
  mailer : Mailer
  email : Email
  trace : List TraceEvent

/-- Mailer.send, mail.py lines 180-208. `tSend` is the `datetime.now()`
taken on success. The transport's returned Bool is ignored (the source
discards it); only a raised exception selects the failure branch, whose
description `str(e)` becomes the `error` field. The message is stored in
`sent_emails` keyed by its id on both branches, and returned. -/
def Mailer.send (m : Mailer) (toArgs : List ToArg)
    (subject body_text body_html : String) (kwargs : SendKwargs)
    (freshId trackingId : String) (tCreate tSend : Nat) : SendResult :=
  let email0 := m.buildEmail toArgs subject body_text body_html kwargs
    freshId trackingId tCreate
  let traceBefore := m.emit "before_send" email0
  let emailSending := { email0 with status := EmailStatus.sending }
  match m.transport emailSending with
  | Except.ok _ =>
      let emailSent := { emailSending with
        status := EmailStatus.sent
        sent_at := some tSend }
      let traceAfter := m.emit "after_send" emailSent
      { mailer := { m with
          sent_emails := dictInsert m.sent_emails emailSent.id emailSent }
        email := emailSent
        trace := traceBefore ++ [TraceEvent.transportCall emailSending] ++ traceAfter }
  | Except.error err =>
      let emailFailed := { emailSending with
        status := EmailStatus.failed
        error := some err }
      let traceErr := m.emit "on_error" emailFailed
      { mailer := { m with
          sent_emails := dictInsert m.sent_emails emailFailed.id emailFailed }
        email := emailFailed
        trace := traceBefore ++ [TraceEvent.transportCall emailSending] ++ traceErr }

/-- Mailer.send_template, mail.py lines 210-217: unknown template id returns
None without building an Email, touching the table, or calling the
transport (empty trace); otherwise renders and delegates to send. -/
def Mailer.send_template (m : Mailer) (template_id : String)
    (toArgs : List ToArg) (context : List (String × String))
    (kwargs : SendKwargs) (freshId trackingId : String) (tCreate tSend : Nat) :
    Mailer × Option Email × List TraceEvent :=
  match m.templates.lookup template_id with
  | none => (m, none, [])
  | some template =>
      let r := template.render context
      let s := m.send toArgs r.1 r.2.1 r.2.2 kwargs freshId trackingId tCreate tSend
      (s.mailer, some s.email, s.trace)

/-- One entry of the list given to Mailer.send_bulk: the dict of send
arguments, mail.py lines 223-228. -/
structure SendArgs where
  toArgs : List ToArg
  subject : String
  body_text : String
  body_html : String
  kwargs : SendKwargs

/-- Environment inputs consumed by one send call: the two uuid draws and
the two clock reads. -/
structure SendEnv where
  freshId : String
  trackingId : String
  tCreate : Nat
  tSend : Nat
deriving DecidableEq, Repr

/-- One send call with packaged arguments and environment. -/
def Mailer.sendEntry (m : Mailer) (e : SendArgs × SendEnv) : SendResult :=
  m.send e.1.toArgs e.1.subject e.1.body_text e.1.body_html e.1.kwargs
    e.2.freshId e.2.trackingId e.2.tCreate e.2.tSend

/-- Mailer.send_bulk, mail.py lines 223-228: invokes send for each entry in
list order, accumulating the returned messages in input order; no entry is
skipped whatever the outcome of earlier entries. -/
def Mailer.send_bulk (m : Mailer) :
    List (SendArgs × SendEnv) → Mailer × List Email × List TraceEvent
  | [] => (m, [], [])
  | e :: rest =>
      let s := m.sendEntry e
      let r := s.mailer.send_bulk rest
      (r.1, s.email :: r.2.1, s.trace ++ r.2.2)

/-- Mailer.get_email, mail.py lines 230-231. -/
def Mailer.get_email (m : Mailer) (email_id : String) : Option Email :=
  m.sent_emails.lookup email_id

/-- Result of Mailer.stats, mail.py lines 233-240. -/
structure Stats where
  total : Nat
  sent : Nat
  failed : Nat
  pending : Nat
deriving DecidableEq, Repr

/-- Mailer.stats, mail.py lines 233-240: counts over the stored messages. -/
def Mailer.stats (m : Mailer) : Stats :=
  let emails := m.sent_emails.map (fun p => p.2)
  { total := emails.length
    sent := (emails.filter (fun e => decide (e.status = EmailStatus.sent))).length
    failed := (emails.filter (fun e => decide (e.status = EmailStatus.failed))).length
    pending := (emails.filter (fun e => decide (e.status = EmailStatus.pending))).length }

/-- Forward rank of a status in the lifecycle
pending → sending → resolved (sent/failed); the four declared but unreached
statuses count as resolved for ranking purposes. -/
def statusRank : EmailStatus → Nat
  | EmailStatus.pending => 0
  | EmailStatus.sending => 1
  | _ => 2

/-- Status of the email carried by a trace event. -/
def eventStatus : TraceEvent → EmailStatus
  | TraceEvent.hookCall _ _ e => e.status
  | TraceEvent.transportCall e => e.status

/-- Sequence of statuses observable during one send call: the status of the
email at each side-effect point, followed by the status of the returned
message. -/
def statusTrajectory (r : SendResult) : List EmailStatus :=
  r.trace.map eventStatus ++ [r.email.status]

/-- Selector for after_send hook invocations in a trace. -/
def afterSendCalls (tr : List TraceEvent) : List TraceEvent :=
  tr.filter (fun ev =>
    match ev with
    | TraceEvent.hookCall event _ _ => decide (event = "after_send")
    | TraceEvent.transportCall _ => false)

/-- Absence of a `\x7b\x7b...\x7d\x7d` placeholder token in a string: no
substring of the form `\x7b\x7b` ++ mid ++ `\x7d\x7d`, for any middle
string, occurs in it. Every placeholder the renderer can substitute is
exactly such a token (with the context key as the middle), so none can
match in the string. -/
def noPlaceholderToken (s : String) : Prop :=
  ∀ mid : String, ¬ (("\x7b\x7b" ++ mid ++ "\x7d\x7d").data <:+: s.data)

/-! Helper lemmas about the embedded operations. -/

/-- Overwriting assignment in a dict whose key is present: looking up the
key afterwards returns the new value. -/
theorem lookup_map_overwrite {α : Type} (k : String) (v : α) (d : List (String × α))
    (hmem : d.any (fun p => decide (p.1 = k)) = true) :
    List.lookup k (d.map (fun p => if p.1 = k then (k, v) else p)) = some v := by
  induction d with
  | nil => simp at hmem
  | cons p rest ih =>
      by_cases hp : p.1 = k
      · rw [List.map_cons, if_pos hp]
        simp [List.lookup]
      · rw [List.map_cons, if_neg hp]
        have hne : (k == p.1) = false := by
          simp only [beq_eq_false_iff_ne, ne_eq]
          exact fun hw => hp hw.symm
        simp only [List.lookup, hne]
        apply ih
        simp only [List.any_cons, Bool.or_eq_true] at hmem
        rcases hmem with h1 | h1
        · exact absurd (of_decide_eq_true h1) hp
        · exact h1

/-- Looking up a key that only the appended last binding carries. -/
theorem lookup_append_fresh {α : Type} (k : String) (v : α) (d : List (String × α))
    (h : ∀ p ∈ d, ¬ p.1 = k) :
    List.lookup k (d ++ [(k, v)]) = some v := by
  induction d with
  | nil => simp [List.lookup]
  | cons p rest ih =>
      have hne : (k == p.1) = false := by
        simp only [beq_eq_false_iff_ne, ne_eq]
        exact fun hw => (h p (List.mem_cons_self p rest)) hw.symm
      simp only [List.cons_append, List.lookup, hne]
      exact ih (fun q hq => h q (List.mem_cons_of_mem p hq))

/-- Looking up the just-assigned key of a dict returns the assigned value. -/
theorem lookup_dictInsert {α : Type} (d : List (String × α)) (k : String) (v : α) :
    (dictInsert d k v).lookup k = some v := by
  unfold dictInsert
  by_cases h : d.any (fun p => decide (p.1 = k)) = true
  · rw [if_pos h]
    exact lookup_map_overwrite k v d h
  · rw [if_neg h]
    apply lookup_append_fresh
    intro p hp hk
    exact h (List.any_eq_true.mpr ⟨p, hp, decide_eq_true hk⟩)

/-- Assigning a fresh key to a dict appends the binding at the end. -/
theorem dictInsert_of_fresh {α : Type} (d : List (String × α)) (k : String) (v : α)
    (h : k ∉ d.map Prod.fst) : dictInsert d k v = d ++ [(k, v)] := by
  unfold dictInsert
  have hany : ¬ ((d.any fun p => decide (p.1 = k)) = true) := by
    intro htrue
    rcases List.any_eq_true.mp htrue with ⟨p, hp, hk⟩
    exact h (List.mem_map.mpr ⟨p, hp, of_decide_eq_true hk⟩)
  rw [if_neg hany]

/-- Unfolding of Mailer.send as a case split on the transport outcome. -/
theorem Mailer.send_unfold (m : Mailer) (toArgs : List ToArg)
    (subject body_text body_html : String) (kwargs : SendKwargs)
    (freshId trackingId : String) (tCreate tSend : Nat) :
    m.send toArgs subject body_text body_html kwargs freshId trackingId tCreate tSend =
      (let email0 := m.buildEmail toArgs subject body_text body_html kwargs
        freshId trackingId tCreate
       let emailSending := { email0 with status := EmailStatus.sending }
       match m.transport emailSending with
       | Except.ok _ =>
           let emailSent := { emailSending with
             status := EmailStatus.sent, sent_at := some tSend }
           { mailer := { m with
               sent_emails := dictInsert m.sent_emails freshId emailSent }
             email := emailSent
             trace := m.emit "before_send" email0 ++
               [TraceEvent.transportCall emailSending] ++
               m.emit "after_send" emailSent }
       | Except.error err =>
           let emailFailed := { emailSending with
             status := EmailStatus.failed, error := some err }
           { mailer := { m with
               sent_emails := dictInsert m.sent_emails freshId emailFailed }
             email := emailFailed
             trace := m.emit "before_send" email0 ++
               [TraceEvent.transportCall emailSending] ++
               m.emit "on_error" emailFailed }) := by
  unfold Mailer.send
  rcases m.transport { m.buildEmail toArgs subject body_text body_html kwargs
      freshId trackingId tCreate with status := EmailStatus.sending } with b | err <;> rfl

/-- Structural facts about one send call used by the sequencing proofs. -/
theorem Mailer.send_parts (m : Mailer) (toArgs : List ToArg)
    (subject body_text body_html : String) (kwargs : SendKwargs)
    (freshId trackingId : String) (tCreate tSend : Nat) :
    (m.send toArgs subject body_text body_html kwargs freshId trackingId tCreate tSend).mailer =
      { m with sent_emails :=
          (dictInsert m.sent_emails freshId
            (m.send toArgs subject body_text body_html kwargs freshId trackingId tCreate tSend).email) } ∧
    (m.send toArgs subject body_text body_html kwargs freshId trackingId tCreate tSend).email.id = freshId ∧
    (m.send toArgs subject body_text body_html kwargs freshId trackingId tCreate tSend).email.subject = subject ∧
    ((m.send toArgs subject body_text body_html kwargs freshId trackingId tCreate tSend).email.status = EmailStatus.sent ∨
      (m.send toArgs subject body_text body_html kwargs freshId trackingId tCreate tSend).email.status = EmailStatus.failed) := by
  simp only [Mailer.send_unfold]
  split <;> simp [Mailer.buildEmail]

/-- Looking up a key absent from a dict returns none. -/
theorem lookup_none_of_fresh {α : Type} (k : String) (d : List (String × α))
    (h : k ∉ d.map Prod.fst) : d.lookup k = none := by
  induction d with
  | nil => rfl
  | cons p rest ih =>
      simp only [List.map_cons, List.mem_cons, not_or] at h
      simp only [List.lookup]
      have hne : (k == p.1) = false := by
        simp only [beq_eq_false_iff_ne, ne_eq]
        exact h.1
      rw [hne]
      exact ih h.2

/-- Emitting an event produces one hookCall per registered handler, in
registration order, carrying the email value passed. -/
theorem Mailer.emit_eq (m : Mailer) (ev : String) (e : Email) :
    m.emit ev e = (m.hooksFor ev).map (fun h => TraceEvent.hookCall ev h.hid e) :=
  rfl

/-! Claim theorems. -/

/-- C1: Mailer.send never propagates a transport exception. When the
transport raises, the returned message has status failed, its error field
holds the exception description, the on_error hooks fire (one call per
registered handler, in order, with the returned message), and the message
is stored in the table keyed by its id. When the transport returns, the
message has status sent and sentAt set, the after_send hooks fire, and the
message is likewise stored and returned. -/
theorem send_swallows_transport_error (m : Mailer) (toArgs : List ToArg)
    (subject body_text body_html : String) (kwargs : SendKwargs)
    (freshId trackingId : String) (tCreate tSend : Nat) :
    (∀ err, m.transport { m.buildEmail toArgs subject body_text body_html kwargs
          freshId trackingId tCreate with status := EmailStatus.sending } = Except.error err →
      ((m.send toArgs subject body_text body_html kwargs freshId trackingId tCreate tSend).email.status
          = EmailStatus.failed ∧
        (m.send toArgs subject body_text body_html kwargs freshId trackingId tCreate tSend).email.error
          = some err ∧
        (m.send toArgs subject body_text body_html kwargs freshId trackingId tCreate tSend).trace =
          m.emit "before_send" (m.buildEmail toArgs subject body_text body_html kwargs freshId trackingId tCreate) ++
            [TraceEvent.transportCall { m.buildEmail toArgs subject body_text body_html kwargs
              freshId trackingId tCreate with status := EmailStatus.sending }] ++
            (m.hooksFor "on_error").map (fun h => TraceEvent.hookCall "on_error" h.hid
              (m.send toArgs subject body_text body_html kwargs freshId trackingId tCreate tSend).email) ∧
        (m.send toArgs subject body_text body_html kwargs freshId trackingId tCreate tSend).mailer.get_email
            (m.send toArgs subject body_text body_html kwargs freshId trackingId tCreate tSend).email.id =
          some (m.send toArgs subject body_text body_html kwargs freshId trackingId tCreate tSend).email)) ∧
    (∀ b, m.transport { m.buildEmail toArgs subject body_text body_html kwargs
          freshId trackingId tCreate with status := EmailStatus.sending } = Except.ok b →
      ((m.send toArgs subject body_text body_html kwargs freshId trackingId tCreate tSend).email.status
          = EmailStatus.sent ∧
        (m.send toArgs subject body_text body_html kwargs freshId trackingId tCreate tSend).email.sent_at
          = some tSend ∧
        (m.send toArgs subject body_text body_html kwargs freshId trackingId tCreate tSend).trace =
          m.emit "before_send" (m.buildEmail toArgs subject body_text body_html kwargs freshId trackingId tCreate) ++
            [TraceEvent.transportCall { m.buildEmail toArgs subject body_text body_html kwargs
              freshId trackingId tCreate with status := EmailStatus.sending }] ++
            (m.hooksFor "after_send").map (fun h => TraceEvent.hookCall "after_send" h.hid
              (m.send toArgs subject body_text body_html kwargs freshId trackingId tCreate tSend).email) ∧
        (m.send toArgs subject body_text body_html kwargs freshId trackingId tCreate tSend).mailer.get_email
            (m.send toArgs subject body_text body_html kwargs freshId trackingId tCreate tSend).email.id =
          some (m.send toArgs subject body_text body_html kwargs freshId trackingId tCreate tSend).email)) := by
  constructor
  · intro err herr
    simp only [Mailer.buildEmail] at herr
    simp [Mailer.send_unfold, herr, Mailer.emit, Mailer.hooksFor, Mailer.get_email,
      Mailer.buildEmail, lookup_dictInsert]
  · intro b hok
    simp only [Mailer.buildEmail] at hok
    simp [Mailer.send_unfold, hok, Mailer.emit, Mailer.hooksFor, Mailer.get_email,
      Mailer.buildEmail, lookup_dictInsert]

/-- C1 witness at a concrete failing transport and a concrete succeeding
transport is split over the two inner hypotheses: here the failing case. -/
theorem send_swallows_transport_error_witness :
    ((Mailer.init (fun _ => Except.error "boom") { email := "noreply@example.com" }).send
        [ToArg.str "a@x"] "S" "T" "" {} "id1" "tk1" 3 7).email.status = EmailStatus.failed ∧
    ((Mailer.init (fun _ => Except.error "boom") { email := "noreply@example.com" }).send
        [ToArg.str "a@x"] "S" "T" "" {} "id1" "tk1" 3 7).email.error = some "boom" ∧
    ((Mailer.init (fun _ => Except.error "boom") { email := "noreply@example.com" }).send
        [ToArg.str "a@x"] "S" "T" "" {} "id1" "tk1" 3 7).mailer.get_email "id1" =
      some ((Mailer.init (fun _ => Except.error "boom") { email := "noreply@example.com" }).send
        [ToArg.str "a@x"] "S" "T" "" {} "id1" "tk1" 3 7).email := by
  have h := (send_swallows_transport_error
    (Mailer.init (fun _ => Except.error "boom") { email := "noreply@example.com" })
    [ToArg.str "a@x"] "S" "T" "" {} "id1" "tk1" 3 7).1 "boom" rfl
  exact ⟨h.1, h.2.1, h.2.2.2⟩

/-- C3 counterexample: an address occurring in both to and cc is submitted
twice, not once, by SMTPTransport.send. -/
theorem envelope_duplicate_counterexample :
    (SMTPTransport.envelopeRecipients { host := "smtp.example.com", port := 25 }
        { id := "e1", «to» := [{ email := "a@x" }], subject := "S",
          cc := [{ email := "a@x" }] }).count "a@x" = 2 ∧
    ¬ ((SMTPTransport.envelopeRecipients { host := "smtp.example.com", port := 25 }
        { id := "e1", «to» := [{ email := "a@x" }], subject := "S",
          cc := [{ email := "a@x" }] }).count "a@x" = 1) := by
  decide

/-- C3 amended: the envelope recipient list SMTPTransport.send submits is
the concatenation of the email fields of to, cc and bcc: each address is
submitted once per occurrence across the three sequences (so an address
present in more than one is submitted more than once), and an address is
submitted iff it occurs in to, cc or bcc. -/
theorem envelopeRecipients_concat (t : SMTPTransport) (e : Email) (a : String) :
    (t.envelopeRecipients e).count a =
      (e.«to».map (fun x => x.email)).count a + (e.cc.map (fun x => x.email)).count a +
        (e.bcc.map (fun x => x.email)).count a ∧
    (a ∈ t.envelopeRecipients e ↔
      a ∈ e.«to».map (fun x => x.email) ∨ a ∈ e.cc.map (fun x => x.email) ∨
        a ∈ e.bcc.map (fun x => x.email)) := by
  unfold SMTPTransport.envelopeRecipients
  constructor
  · simp [List.count_append, Nat.add_assoc]
  · simp [or_assoc]

/-- C4: send_template with an unregistered template id returns None, leaves
the mailer (in particular its message table) unchanged, creates no message
and performs no transport call (its trace is empty). -/
theorem send_template_unknown_id_noop (m : Mailer) (template_id : String)
    (toArgs : List ToArg) (context : List (String × String)) (kwargs : SendKwargs)
    (freshId trackingId : String) (tCreate tSend : Nat)
    (habs : m.templates.lookup template_id = none) :
    m.send_template template_id toArgs context kwargs freshId trackingId tCreate tSend
        = (m, none, []) ∧
    (m.send_template template_id toArgs context kwargs freshId trackingId tCreate tSend).1.sent_emails
        = m.sent_emails ∧
    ∀ ev ∈ (m.send_template template_id toArgs context kwargs freshId trackingId tCreate tSend).2.2,
      ∀ e : Email, ev ≠ TraceEvent.transportCall e := by
  have h1 : m.send_template template_id toArgs context kwargs freshId trackingId tCreate tSend
      = (m, none, []) := by
    unfold Mailer.send_template
    rw [habs]
  refine ⟨h1, by rw [h1], ?_⟩
  rw [h1]
  intro ev hev
  simp at hev

/-- C4 witness: a fresh mailer has no template registered under
"welcome", and send_template on it is a no-op returning None. -/
theorem send_template_unknown_id_noop_witness :
    (Mailer.init MockTransport.sendBehavior { email := "noreply@example.com" }).send_template
        "welcome" [ToArg.str "a@x"] [] {} "id1" "tk1" 0 1 =
      (Mailer.init MockTransport.sendBehavior { email := "noreply@example.com" }, none, []) := by
  exact (send_template_unknown_id_noop
    (Mailer.init MockTransport.sendBehavior { email := "noreply@example.com" })
    "welcome" [ToArg.str "a@x"] [] {} "id1" "tk1" 0 1 rfl).1

/-- C10: add_hook with an event name other than before_send, after_send and
on_error (for a mailer whose hook table has exactly those three keys, as
every mailer constructed by Mailer.__init__ has) is a no-op: the mailer is
returned unchanged, so a handler registered under a misspelled event name
is never invoked. -/
theorem add_hook_unknown_event_noop (m : Mailer) (event : String) (handler : Hook)
    (hkeys : m.hooks.map Prod.fst = ["before_send", "after_send", "on_error"])
    (hev : event ∉ (["before_send", "after_send", "on_error"] : List String)) :
    m.add_hook event handler = m := by
  have hnone : m.hooks.lookup event = none := by
    apply lookup_none_of_fresh
    rw [hkeys]
    exact hev
  unfold Mailer.add_hook
  rw [hnone]
  rfl

/-- C6: EmailTemplate.render processes the context keys in insertion order,
replacing every literal occurrence of the placeholder of each key (the
first conjunct is the per-key step, whose replacement is Python's
str.replace, i.e. every non-overlapping occurrence); in particular the
round-trip example from the spec holds. -/
theorem render_insertion_order_and_example :
    (∀ (t : EmailTemplate) (key value : String) (rest : List (String × String)),
      t.render ((key, value) :: rest) =
        EmailTemplate.render { t with
          subject := pyReplace t.subject (placeholder key) value
          body_text := pyReplace t.body_text (placeholder key) value
          body_html := pyReplace t.body_html (placeholder key) value } rest) ∧
    (EmailTemplate.render
        { id := "welcome", name := "Welcome Email",
          subject := "Welcome \x7b\x7bname\x7d\x7d to \x7b\x7bapp_name\x7d\x7d" }
        [("name", "Bob"), ("app_name", "X")]).1 = "Welcome Bob to X" := by
  exact ⟨fun t key value rest => rfl, by decide⟩

/-- C8: send_bulk returns one message per entry, in input order (witnessed
by the id and subject of each result matching its entry positionally), and
every entry is sent to completion (resolved to sent or failed) regardless
of the outcome of earlier entries. -/
theorem send_bulk_order (m : Mailer) (entries : List (SendArgs × SendEnv)) :
    (m.send_bulk entries).2.1.length = entries.length ∧
    (m.send_bulk entries).2.1.map (fun e => e.id) = entries.map (fun e => e.2.freshId) ∧
    (m.send_bulk entries).2.1.map (fun e => e.subject) = entries.map (fun e => e.1.subject) ∧
    ∀ e ∈ (m.send_bulk entries).2.1,
      e.status = EmailStatus.sent ∨ e.status = EmailStatus.failed := by
  induction entries generalizing m with
  | nil => simp [Mailer.send_bulk]
  | cons entry rest ih =>
      have hparts := Mailer.send_parts m entry.1.toArgs entry.1.subject entry.1.body_text
        entry.1.body_html entry.1.kwargs entry.2.freshId entry.2.trackingId
        entry.2.tCreate entry.2.tSend
      have hrec := ih (m.send entry.1.toArgs entry.1.subject entry.1.body_text
        entry.1.body_html entry.1.kwargs entry.2.freshId entry.2.trackingId
        entry.2.tCreate entry.2.tSend).mailer
      simp only [Mailer.send_bulk, Mailer.sendEntry, List.length_cons, List.map_cons,
        List.mem_cons]
      refine ⟨by simp [hrec.1], by simp [hrec.2.1, hparts.2.1],
        by simp [hrec.2.2.1, hparts.2.2.1], ?_⟩
      intro e he
      rcases he with h | h
      · rw [h]
        exact hparts.2.2.2
      · exact hrec.2.2.2 e h

/-- C8 witness: two entries of which the second fails still yield two
results, in input order, each resolved. -/
theorem send_bulk_order_witness :
    ((Mailer.init (fun e => if e.subject = "A" then Except.ok true else Except.error "down")
        { email := "noreply@example.com" }).send_bulk
      ([(⟨[ToArg.str "a@x"], "A", "", "", {}⟩, ⟨"idA", "tA", 0, 1⟩),
        (⟨[ToArg.str "b@x"], "B", "", "", {}⟩, ⟨"idB", "tB", 2, 3⟩)] :
          List (SendArgs × SendEnv))).2.1.length = 2 ∧
    ((Mailer.init (fun e => if e.subject = "A" then Except.ok true else Except.error "down")
        { email := "noreply@example.com" }).send_bulk
      ([(⟨[ToArg.str "a@x"], "A", "", "", {}⟩, ⟨"idA", "tA", 0, 1⟩),
        (⟨[ToArg.str "b@x"], "B", "", "", {}⟩, ⟨"idB", "tB", 2, 3⟩)] :
          List (SendArgs × SendEnv))).2.1.map (fun e => e.id) = ["idA", "idB"] ∧
    ((Mailer.init (fun e => if e.subject = "A" then Except.ok true else Except.error "down")
        { email := "noreply@example.com" }).send_bulk
      ([(⟨[ToArg.str "a@x"], "A", "", "", {}⟩, ⟨"idA", "tA", 0, 1⟩),
        (⟨[ToArg.str "b@x"], "B", "", "", {}⟩, ⟨"idB", "tB", 2, 3⟩)] :
          List (SendArgs × SendEnv))).2.1.map (fun e => e.subject) = ["A", "B"] ∧
    ∀ e ∈ ((Mailer.init (fun e => if e.subject = "A" then Except.ok true else Except.error "down")
        { email := "noreply@example.com" }).send_bulk
      ([(⟨[ToArg.str "a@x"], "A", "", "", {}⟩, ⟨"idA", "tA", 0, 1⟩),
        (⟨[ToArg.str "b@x"], "B", "", "", {}⟩, ⟨"idB", "tB", 2, 3⟩)] :
          List (SendArgs × SendEnv))).2.1,
      e.status = EmailStatus.sent ∨ e.status = EmailStatus.failed :=
  send_bulk_order
    (Mailer.init (fun e => if e.subject = "A" then Except.ok true else Except.error "down")
      { email := "noreply@example.com" })
    ([(⟨[ToArg.str "a@x"], "A", "", "", {}⟩, ⟨"idA", "tA", 0, 1⟩),
      (⟨[ToArg.str "b@x"], "B", "", "", {}⟩, ⟨"idB", "tB", 2, 3⟩)] :
        List (SendArgs × SendEnv))

/-- Replacement leaves a string unchanged when the pattern is not a
substring of it: every prefix test in the scan fails. -/
theorem strReplaceAux_of_no_match (pat rep : List Char) (fuel : Nat) (s : List Char)
    (h : ¬ pat <:+: s) : strReplaceAux pat rep fuel s = s := by
  induction fuel generalizing s with
  | zero => cases s <;> rfl
  | succ fuel ih =>
      cases s with
      | nil => rfl
      | cons c rest =>
          have hhead : ¬ ((c :: rest).take pat.length = pat) := by
            intro htake
            exact h (List.IsPrefix.isInfix (List.prefix_iff_eq_take.mpr htake.symm))
          have htail : ¬ pat <:+: rest := fun hr =>
            h (hr.trans (List.suffix_cons c rest).isInfix)
          simp only [strReplaceAux, if_neg hhead]
          rw [ih rest htail]

/-- The placeholder of a key is itself a placeholder token (its middle is
the key), so in a token-free string it does not occur and replacing it is
the identity. -/
theorem pyReplace_no_token (s key value : String) (h : noPlaceholderToken s) :
    pyReplace s (placeholder key) value = s := by
  have hni : ¬ ((placeholder key).data <:+: s.data) := h key
  unfold pyReplace strReplace
  rw [strReplaceAux_of_no_match _ _ _ _ hni]

/-- Decidable sufficient condition for token-freeness: a string without the
opening delimiter contains no placeholder token, since every token starts
with `\x7b\x7b`. -/
theorem noPlaceholderToken_of_no_open (s : String)
    (h : ¬ ("\x7b\x7b".data <:+: s.data)) : noPlaceholderToken s := by
  intro mid hin
  apply h
  refine List.IsInfix.trans (List.IsPrefix.isInfix ?_) hin
  show "\x7b\x7b".data <+: ("\x7b\x7b" ++ mid ++ "\x7d\x7d").data
  rw [String.data_append, String.data_append, List.append_assoc]
  exact List.prefix_append _ _

/-- C9: rendering a template whose subject, text body and HTML body contain
no `\x7b\x7b...\x7d\x7d` placeholder token (no substring of that shape, for
any middle string) returns all three unchanged, for every context (unused
context keys are silently ignored; no error is possible since rendering is
total). -/
theorem render_no_token_unchanged (t : EmailTemplate) (context : List (String × String))
    (h1 : noPlaceholderToken t.subject) (h2 : noPlaceholderToken t.body_text)
    (h3 : noPlaceholderToken t.body_html) :
    t.render context = (t.subject, t.body_text, t.body_html) := by
  induction context generalizing t with
  | nil => rfl
  | cons kv rest ih =>
      cases kv with
      | mk key value =>
          have step : t.render ((key, value) :: rest) = t.render rest := by
            show EmailTemplate.render { t with
              subject := pyReplace t.subject (placeholder key) value
              body_text := pyReplace t.body_text (placeholder key) value
              body_html := pyReplace t.body_html (placeholder key) value } rest = t.render rest
            rw [pyReplace_no_token t.subject key value h1,
              pyReplace_no_token t.body_text key value h2,
              pyReplace_no_token t.body_html key value h3]
          rw [step]
          exact ih t h1 h2 h3

/-- C9 witness: a placeholder-free template is rendered unchanged under a
non-empty context. -/
theorem render_no_token_unchanged_witness :
    noPlaceholderToken "Hello" ∧ noPlaceholderToken "T" ∧ noPlaceholderToken "<p>T</p>" ∧
    (EmailTemplate.mk "t1" "n" "Hello" "T" "<p>T</p>" []).render [("name", "Bob")] =
      ("Hello", "T", "<p>T</p>") := by
  have hs : noPlaceholderToken "Hello" := noPlaceholderToken_of_no_open "Hello" (by decide)
  have ht : noPlaceholderToken "T" := noPlaceholderToken_of_no_open "T" (by decide)
  have hh : noPlaceholderToken "<p>T</p>" :=
    noPlaceholderToken_of_no_open "<p>T</p>" (by decide)
  exact ⟨hs, ht, hh,
    render_no_token_unchanged (EmailTemplate.mk "t1" "n" "Hello" "T" "<p>T</p>" [])
      [("name", "Bob")] hs ht hh⟩

/-- Pairwise rank ordering for a tail of resolved statuses. -/
theorem pairwise_all_rank_two (l : List EmailStatus) (final : EmailStatus)
    (h : ∀ a ∈ l, statusRank a = 2) (hf : statusRank final = 2) :
    List.Pairwise (fun a b => statusRank a ≤ statusRank b) (l ++ [final]) := by
  induction l with
  | nil => simp
  | cons a rest ih =>
      refine List.Pairwise.cons ?_ (ih (fun b hb => h b (List.mem_cons_of_mem a hb)))
      intro b hb
      rw [h a (List.mem_cons_self a rest)]
      rcases List.mem_append.mp hb with hb | hb
      · rw [h b (List.mem_cons_of_mem a hb)]
      · simp only [List.mem_singleton] at hb
        subst hb
        rw [hf]

/-- Pairwise rank ordering for a full trajectory
pending* ++ [sending] ++ resolved* ++ [resolved]. -/
theorem pairwise_traj (final : EmailStatus) (hf : statusRank final = 2)
    (l2 : List EmailStatus) (h2 : ∀ a ∈ l2, statusRank a = 2) :
    ∀ l1 : List EmailStatus, (∀ a ∈ l1, statusRank a = 0) →
      List.Pairwise (fun a b => statusRank a ≤ statusRank b)
        (l1 ++ [EmailStatus.sending] ++ l2 ++ [final]) := by
  intro l1
  induction l1 with
  | nil =>
      intro _
      simp only [List.nil_append]
      refine List.Pairwise.cons ?_ (pairwise_all_rank_two l2 final h2 hf)
      intro b hb
      show statusRank EmailStatus.sending ≤ statusRank b
      rcases List.mem_append.mp hb with hb | hb
      · rw [h2 b hb]
        exact Nat.le_of_lt (by decide)
      · simp only [List.mem_singleton] at hb
        subst hb
        rw [hf]
        exact Nat.le_of_lt (by decide)
  | cons a rest ih =>
      intro h1
      simp only [List.cons_append]
      refine List.Pairwise.cons ?_ (ih (fun x hx => h1 x (List.mem_cons_of_mem a hx)))
      intro b hb
      rw [h1 a (List.mem_cons_self a rest)]
      exact Nat.zero_le _

/-- The observable status trajectory of one send call: pending at every
before_send hook, sending at the transport call, then the resolved status
at every after_send (resp. on_error) hook and on the returned message. -/
theorem statusTrajectory_send (m : Mailer) (toArgs : List ToArg)
    (subject body_text body_html : String) (kwargs : SendKwargs)
    (freshId trackingId : String) (tCreate tSend : Nat) :
    (statusTrajectory (m.send toArgs subject body_text body_html kwargs freshId trackingId tCreate tSend) =
        (m.hooksFor "before_send").map (fun _ => EmailStatus.pending) ++
          [EmailStatus.sending] ++
          (m.hooksFor "after_send").map (fun _ => EmailStatus.sent) ++ [EmailStatus.sent] ∧
      (m.send toArgs subject body_text body_html kwargs freshId trackingId tCreate tSend).email.status
        = EmailStatus.sent) ∨
    (statusTrajectory (m.send toArgs subject body_text body_html kwargs freshId trackingId tCreate tSend) =
        (m.hooksFor "before_send").map (fun _ => EmailStatus.pending) ++
          [EmailStatus.sending] ++
          (m.hooksFor "on_error").map (fun _ => EmailStatus.failed) ++ [EmailStatus.failed] ∧
      (m.send toArgs subject body_text body_html kwargs freshId trackingId tCreate tSend).email.status
        = EmailStatus.failed) := by
  simp only [Mailer.send_unfold]
  split
  · left
    constructor
    · simp [statusTrajectory, eventStatus, Mailer.emit, Mailer.buildEmail, List.map_map,
        Function.comp_def, List.append_assoc]
    · rfl
  · right
    constructor
    · simp [statusTrajectory, eventStatus, Mailer.emit, Mailer.buildEmail, List.map_map,
        Function.comp_def, List.append_assoc]
    · rfl

/-- Timestamp facts about one send call. -/
theorem send_timestamps (m : Mailer) (toArgs : List ToArg)
    (subject body_text body_html : String) (kwargs : SendKwargs)
    (freshId trackingId : String) (tCreate tSend : Nat) :
    (m.send toArgs subject body_text body_html kwargs freshId trackingId tCreate tSend).email.created_at
        = tCreate ∧
    ((m.send toArgs subject body_text body_html kwargs freshId trackingId tCreate tSend).email.sent_at
        = some tSend ∨
      (m.send toArgs subject body_text body_html kwargs freshId trackingId tCreate tSend).email.sent_at
        = none) := by
  simp only [Mailer.send_unfold]
  split
  · exact ⟨rfl, Or.inl rfl⟩
  · exact ⟨rfl, Or.inr (by simp [Mailer.buildEmail])⟩

/-- C2: the status of a message created by a synchronous send moves only
forward along pending → sending → resolved: the returned message's status
is exactly one of sent or failed (so never pending, sending, bounced,
delivered, opened or clicked), the observed status ranks never decrease at
any point of the call (no re-entry into sending once resolved), and under a
monotone clock createdAt ≤ sentAt whenever sentAt is set. -/
theorem send_status_forward (m : Mailer) (toArgs : List ToArg)
    (subject body_text body_html : String) (kwargs : SendKwargs)
    (freshId trackingId : String) (tCreate tSend : Nat)
    (hclock : tCreate ≤ tSend) :
    ((m.send toArgs subject body_text body_html kwargs freshId trackingId tCreate tSend).email.status
        = EmailStatus.sent ∨
      (m.send toArgs subject body_text body_html kwargs freshId trackingId tCreate tSend).email.status
        = EmailStatus.failed) ∧
    (∀ ts, (m.send toArgs subject body_text body_html kwargs freshId trackingId tCreate tSend).email.sent_at
          = some ts →
        (m.send toArgs subject body_text body_html kwargs freshId trackingId tCreate tSend).email.created_at
          ≤ ts) ∧
    List.Pairwise (fun a b => statusRank a ≤ statusRank b)
      (statusTrajectory (m.send toArgs subject body_text body_html kwargs freshId trackingId tCreate tSend)) := by
  refine ⟨(Mailer.send_parts m toArgs subject body_text body_html kwargs freshId trackingId
    tCreate tSend).2.2.2, ?_, ?_⟩
  · intro ts hts
    obtain ⟨hcreate, hsent⟩ := send_timestamps m toArgs subject body_text body_html kwargs
      freshId trackingId tCreate tSend
    rw [hcreate]
    rcases hsent with hsome | hnone
    · rw [hsome] at hts
      injection hts with hh
      rw [← hh]
      exact hclock
    · rw [hnone] at hts
      cases hts
  · rcases statusTrajectory_send m toArgs subject body_text body_html kwargs freshId trackingId
      tCreate tSend with ⟨htraj, _⟩ | ⟨htraj, _⟩ <;> rw [htraj]
    · exact pairwise_traj EmailStatus.sent rfl _
        (fun a ha => by rcases List.mem_map.mp ha with ⟨x, _, rfl⟩; rfl) _
        (fun a ha => by rcases List.mem_map.mp ha with ⟨x, _, rfl⟩; rfl)
    · exact pairwise_traj EmailStatus.failed rfl _
        (fun a ha => by rcases List.mem_map.mp ha with ⟨x, _, rfl⟩; rfl) _
        (fun a ha => by rcases List.mem_map.mp ha with ⟨x, _, rfl⟩; rfl)

/-- C2 witness at a concrete mailer, clock 3 ≤ 7. -/
theorem send_status_forward_witness :
    (3 ≤ 7) ∧
    (((Mailer.init MockTransport.sendBehavior { email := "noreply@example.com" }).send
        [ToArg.str "a@x"] "S" "T" "" {} "id1" "tk1" 3 7).email.status = EmailStatus.sent ∨
      ((Mailer.init MockTransport.sendBehavior { email := "noreply@example.com" }).send
        [ToArg.str "a@x"] "S" "T" "" {} "id1" "tk1" 3 7).email.status = EmailStatus.failed) ∧
    (∀ ts, ((Mailer.init MockTransport.sendBehavior { email := "noreply@example.com" }).send
          [ToArg.str "a@x"] "S" "T" "" {} "id1" "tk1" 3 7).email.sent_at = some ts →
        ((Mailer.init MockTransport.sendBehavior { email := "noreply@example.com" }).send
          [ToArg.str "a@x"] "S" "T" "" {} "id1" "tk1" 3 7).email.created_at ≤ ts) ∧
    List.Pairwise (fun a b => statusRank a ≤ statusRank b)
      (statusTrajectory ((Mailer.init MockTransport.sendBehavior { email := "noreply@example.com" }).send
        [ToArg.str "a@x"] "S" "T" "" {} "id1" "tk1" 3 7)) :=
  ⟨by decide,
    send_status_forward (Mailer.init MockTransport.sendBehavior { email := "noreply@example.com" })
      [ToArg.str "a@x"] "S" "T" "" {} "id1" "tk1" 3 7 (by decide)⟩

/-- Updating the value stored under a present key of a dict, as
Mailer.add_hook does, is visible to a subsequent lookup. -/
theorem lookup_map_update {α : Type} (ev : String) (g : α → α) (d : List (String × α))
    (l : α) (hl : d.lookup ev = some l) :
    List.lookup ev (d.map (fun p => if p.1 = ev then (p.1, g p.2) else p)) = some (g l) := by
  induction d with
  | nil => cases hl
  | cons p rest ih =>
      by_cases hp : p.1 = ev
      · rw [List.map_cons, if_pos hp]
        have hb : (ev == p.1) = true := by
          subst hp
          exact beq_self_eq_true p.1
        simp only [List.lookup, hb] at hl ⊢
        injection hl with hh
        rw [hh]
      · rw [List.map_cons, if_neg hp]
        have hb : (ev == p.1) = false := by
          simp only [beq_eq_false_iff_ne, ne_eq]
          exact fun hw => hp hw.symm
        simp only [List.lookup, hb] at hl ⊢
        exact ih hl

/-- add_hook on a registered event appends the handler at the end of that
event's handler list. -/
theorem add_hook_lookup (m : Mailer) (ev : String) (h : Hook) (l : List Hook)
    (hl : m.hooks.lookup ev = some l) :
    (m.add_hook ev h).hooks.lookup ev = some (l ++ [h]) := by
  unfold Mailer.add_hook
  rw [hl]
  simp only [Option.isSome_some, if_pos]
  exact lookup_map_update ev (fun x => x ++ [h]) m.hooks l hl

/-- add_hook changes nothing but the hook table. -/
theorem add_hook_parts (m : Mailer) (ev : String) (h : Hook) :
    (m.add_hook ev h).transport = m.transport ∧
    (m.add_hook ev h).default_from = m.default_from ∧
    (m.add_hook ev h).templates = m.templates ∧
    (m.add_hook ev h).sent_emails = m.sent_emails := by
  unfold Mailer.add_hook
  split <;> exact ⟨rfl, rfl, rfl, rfl⟩

/-- A hook-call trace over handlers whose id x is not among them contains
no call with id x. -/
theorem count_hookCall_map_zero (ev : String) (e : Email) (l : List Hook) (x : Nat)
    (hx : x ∉ l.map Hook.hid) :
    (l.map (fun h => TraceEvent.hookCall ev h.hid e)).count
      (TraceEvent.hookCall ev x e) = 0 := by
  rw [List.count_eq_zero]
  intro hmem
  rcases List.mem_map.mp hmem with ⟨h, hh, heq⟩
  injection heq with _ hhid _
  exact hx (List.mem_map.mpr ⟨h, hh, hhid⟩)

/-- C7: registering h1 then h2 on after_send and performing a successful
send invokes h1 before h2 (the after_send portion of the trace is exactly
the prior handlers followed by h1 then h2), each exactly once when the
handler ids are distinct, and every call carries the very message that
send returns, already resolved to sent with sentAt set. -/
theorem after_send_hooks_in_order (m : Mailer) (hs : List Hook) (h1 h2 : Hook)
    (toArgs : List ToArg) (subject body_text body_html : String) (kwargs : SendKwargs)
    (freshId trackingId : String) (tCreate tSend : Nat) (b : Bool)
    (hreg : m.hooks.lookup "after_send" = some hs)
    (hok : ((m.add_hook "after_send" h1).add_hook "after_send" h2).transport
        { ((m.add_hook "after_send" h1).add_hook "after_send" h2).buildEmail toArgs subject
            body_text body_html kwargs freshId trackingId tCreate with
          status := EmailStatus.sending } = Except.ok b) :
    afterSendCalls (((m.add_hook "after_send" h1).add_hook "after_send" h2).send toArgs subject
        body_text body_html kwargs freshId trackingId tCreate tSend).trace =
      (hs ++ [h1, h2]).map (fun h => TraceEvent.hookCall "after_send" h.hid
        (((m.add_hook "after_send" h1).add_hook "after_send" h2).send toArgs subject
          body_text body_html kwargs freshId trackingId tCreate tSend).email) ∧
    (((m.add_hook "after_send" h1).add_hook "after_send" h2).send toArgs subject body_text
        body_html kwargs freshId trackingId tCreate tSend).email.status = EmailStatus.sent ∧
    (((m.add_hook "after_send" h1).add_hook "after_send" h2).send toArgs subject body_text
        body_html kwargs freshId trackingId tCreate tSend).email.sent_at = some tSend ∧
    (h1.hid ≠ h2.hid → h1.hid ∉ hs.map Hook.hid →
      (afterSendCalls (((m.add_hook "after_send" h1).add_hook "after_send" h2).send toArgs
          subject body_text body_html kwargs freshId trackingId tCreate tSend).trace).count
        (TraceEvent.hookCall "after_send" h1.hid
          (((m.add_hook "after_send" h1).add_hook "after_send" h2).send toArgs subject
            body_text body_html kwargs freshId trackingId tCreate tSend).email) = 1) ∧
    (h1.hid ≠ h2.hid → h2.hid ∉ hs.map Hook.hid →
      (afterSendCalls (((m.add_hook "after_send" h1).add_hook "after_send" h2).send toArgs
          subject body_text body_html kwargs freshId trackingId tCreate tSend).trace).count
        (TraceEvent.hookCall "after_send" h2.hid
          (((m.add_hook "after_send" h1).add_hook "after_send" h2).send toArgs subject
            body_text body_html kwargs freshId trackingId tCreate tSend).email) = 1) := by
  have hlook : ((m.add_hook "after_send" h1).add_hook "after_send" h2).hooks.lookup
      "after_send" = some (hs ++ [h1] ++ [h2]) :=
    add_hook_lookup (m.add_hook "after_send" h1) "after_send" h2 (hs ++ [h1])
      (add_hook_lookup m "after_send" h1 hs hreg)
  have hhooksFor : ((m.add_hook "after_send" h1).add_hook "after_send" h2).hooksFor
      "after_send" = hs ++ [h1, h2] := by
    unfold Mailer.hooksFor
    rw [hlook]
    simp [List.append_assoc]
  have hcalls : afterSendCalls (((m.add_hook "after_send" h1).add_hook "after_send" h2).send
      toArgs subject body_text body_html kwargs freshId trackingId tCreate tSend).trace =
      (hs ++ [h1, h2]).map (fun h => TraceEvent.hookCall "after_send" h.hid
        (((m.add_hook "after_send" h1).add_hook "after_send" h2).send toArgs subject
          body_text body_html kwargs freshId trackingId tCreate tSend).email) := by
    simp only [Mailer.buildEmail] at hok
    simp [Mailer.send_unfold, hok, afterSendCalls, Mailer.emit, hhooksFor,
      List.filter_append, List.filter_map, Mailer.buildEmail, Function.comp_def]
  refine ⟨hcalls, ?_, ?_, ?_, ?_⟩
  · simp only [Mailer.buildEmail] at hok
    simp [Mailer.send_unfold, hok, Mailer.buildEmail]
  · simp only [Mailer.buildEmail] at hok
    simp [Mailer.send_unfold, hok, Mailer.buildEmail]
  · intro hne h1f
    rw [hcalls]
    simp only [List.map_append, List.count_append]
    rw [count_hookCall_map_zero _ _ hs h1.hid h1f]
    simp [List.count_cons, TraceEvent.hookCall.injEq, Ne.symm hne]
  · intro hne h2f
    rw [hcalls]
    simp only [List.map_append, List.count_append]
    rw [count_hookCall_map_zero _ _ hs h2.hid h2f]
    simp [List.count_cons, TraceEvent.hookCall.injEq, hne]

/-- C7 witness: two hooks with ids 1 and 2 registered on a fresh mock-backed
mailer fire in order, once each, on the returned sent message. -/
theorem after_send_hooks_in_order_witness :
    afterSendCalls ((((Mailer.init MockTransport.sendBehavior { email := "noreply@example.com" }).add_hook
          "after_send" { hid := 1, run := fun _ => Except.ok () }).add_hook
          "after_send" { hid := 2, run := fun _ => Except.ok () }).send
        [ToArg.str "a@x"] "S" "T" "" {} "id1" "tk1" 3 7).trace =
      (([] : List Hook) ++ ([{ hid := 1, run := fun _ => Except.ok () },
          { hid := 2, run := fun _ => Except.ok () }] : List Hook)).map
        (fun h => TraceEvent.hookCall "after_send" h.hid
          ((((Mailer.init MockTransport.sendBehavior { email := "noreply@example.com" }).add_hook
              "after_send" { hid := 1, run := fun _ => Except.ok () }).add_hook
              "after_send" { hid := 2, run := fun _ => Except.ok () }).send
            [ToArg.str "a@x"] "S" "T" "" {} "id1" "tk1" 3 7).email) ∧
    ((((Mailer.init MockTransport.sendBehavior { email := "noreply@example.com" }).add_hook
          "after_send" { hid := 1, run := fun _ => Except.ok () }).add_hook
          "after_send" { hid := 2, run := fun _ => Except.ok () }).send
        [ToArg.str "a@x"] "S" "T" "" {} "id1" "tk1" 3 7).email.status = EmailStatus.sent ∧
    ((((Mailer.init MockTransport.sendBehavior { email := "noreply@example.com" }).add_hook
          "after_send" { hid := 1, run := fun _ => Except.ok () }).add_hook
          "after_send" { hid := 2, run := fun _ => Except.ok () }).send
        [ToArg.str "a@x"] "S" "T" "" {} "id1" "tk1" 3 7).email.sent_at = some 7 ∧
    (afterSendCalls ((((Mailer.init MockTransport.sendBehavior { email := "noreply@example.com" }).add_hook
          "after_send" { hid := 1, run := fun _ => Except.ok () }).add_hook
          "after_send" { hid := 2, run := fun _ => Except.ok () }).send
        [ToArg.str "a@x"] "S" "T" "" {} "id1" "tk1" 3 7).trace).count
      (TraceEvent.hookCall "after_send" 1
        ((((Mailer.init MockTransport.sendBehavior { email := "noreply@example.com" }).add_hook
            "after_send" { hid := 1, run := fun _ => Except.ok () }).add_hook
            "after_send" { hid := 2, run := fun _ => Except.ok () }).send
          [ToArg.str "a@x"] "S" "T" "" {} "id1" "tk1" 3 7).email) = 1 ∧
    (afterSendCalls ((((Mailer.init MockTransport.sendBehavior { email := "noreply@example.com" }).add_hook
          "after_send" { hid := 1, run := fun _ => Except.ok () }).add_hook
          "after_send" { hid := 2, run := fun _ => Except.ok () }).send
        [ToArg.str "a@x"] "S" "T" "" {} "id1" "tk1" 3 7).trace).count
      (TraceEvent.hookCall "after_send" 2
        ((((Mailer.init MockTransport.sendBehavior { email := "noreply@example.com" }).add_hook
            "after_send" { hid := 1, run := fun _ => Except.ok () }).add_hook
            "after_send" { hid := 2, run := fun _ => Except.ok () }).send
          [ToArg.str "a@x"] "S" "T" "" {} "id1" "tk1" 3 7).email) = 1 := by
  have H := after_send_hooks_in_order
    (Mailer.init MockTransport.sendBehavior { email := "noreply@example.com" }) []
    { hid := 1, run := fun _ => Except.ok () } { hid := 2, run := fun _ => Except.ok () }
    [ToArg.str "a@x"] "S" "T" "" {} "id1" "tk1" 3 7 true rfl rfl
  exact ⟨H.1, H.2.1, H.2.2.1, H.2.2.2.1 (by decide) (by decide),
    H.2.2.2.2 (by decide) (by decide)⟩

/-- Every message returned by send_bulk is resolved to sent or failed. -/
theorem send_bulk_status (entries : List (SendArgs × SendEnv)) :
    ∀ m : Mailer, ∀ e ∈ (m.send_bulk entries).2.1,
      e.status = EmailStatus.sent ∨ e.status = EmailStatus.failed := by
  induction entries with
  | nil =>
      intro m e he
      simp [Mailer.send_bulk] at he
  | cons entry rest ih =>
      intro m e he
      simp only [Mailer.send_bulk, Mailer.sendEntry, List.mem_cons] at he
      rcases he with h | h
      · rw [h]
        exact (Mailer.send_parts m entry.1.toArgs entry.1.subject entry.1.body_text
          entry.1.body_html entry.1.kwargs entry.2.freshId entry.2.trackingId
          entry.2.tCreate entry.2.tSend).2.2.2
      · exact ih _ e h

/-- With pairwise-distinct fresh ids that also avoid the keys already in
the table, send_bulk appends one binding per returned message, in order. -/
theorem send_bulk_table (entries : List (SendArgs × SendEnv)) :
    ∀ m : Mailer,
      (entries.map (fun e => e.2.freshId)).Nodup →
      (∀ e ∈ entries, e.2.freshId ∉ m.sent_emails.map Prod.fst) →
      (m.send_bulk entries).1.sent_emails =
        m.sent_emails ++ (m.send_bulk entries).2.1.map (fun e => (e.id, e)) := by
  induction entries with
  | nil =>
      intro m _ _
      simp [Mailer.send_bulk]
  | cons entry rest ih =>
      intro m hnodup hfresh
      have hparts := Mailer.send_parts m entry.1.toArgs entry.1.subject entry.1.body_text
        entry.1.body_html entry.1.kwargs entry.2.freshId entry.2.trackingId
        entry.2.tCreate entry.2.tSend
      have hfresh0 : entry.2.freshId ∉ m.sent_emails.map Prod.fst :=
        hfresh entry (List.mem_cons_self entry rest)
      have hsm : (m.send entry.1.toArgs entry.1.subject entry.1.body_text entry.1.body_html
          entry.1.kwargs entry.2.freshId entry.2.trackingId entry.2.tCreate
          entry.2.tSend).mailer.sent_emails =
          m.sent_emails ++ [(entry.2.freshId, (m.send entry.1.toArgs entry.1.subject
            entry.1.body_text entry.1.body_html entry.1.kwargs entry.2.freshId
            entry.2.trackingId entry.2.tCreate entry.2.tSend).email)] := by
        rw [congrArg Mailer.sent_emails hparts.1]
        exact dictInsert_of_fresh m.sent_emails entry.2.freshId _ hfresh0
      simp only [List.map_cons, List.nodup_cons] at hnodup
      have hrec := ih (m.send entry.1.toArgs entry.1.subject entry.1.body_text
          entry.1.body_html entry.1.kwargs entry.2.freshId entry.2.trackingId
          entry.2.tCreate entry.2.tSend).mailer hnodup.2 ?hfr
      case hfr =>
        intro e he
        rw [hsm]
        simp only [List.map_append, List.mem_append, List.map_cons, List.map_nil,
          List.mem_singleton, not_or]
        constructor
        · exact hfresh e (List.mem_cons_of_mem entry he)
        · intro heq
          exact hnodup.1 (heq ▸ List.mem_map.mpr ⟨e, he, rfl⟩)
      simp only [Mailer.send_bulk, Mailer.sendEntry]
      rw [hrec, hsm]
      simp [hparts.2.1, List.append_assoc]

/-- For a list of resolved messages, the sent count and the failed count
partition the length. -/
theorem length_filter_partition (l : List Email)
    (h : ∀ e ∈ l, e.status = EmailStatus.sent ∨ e.status = EmailStatus.failed) :
    (l.filter (fun e => decide (e.status = EmailStatus.sent))).length +
      (l.filter (fun e => decide (e.status = EmailStatus.failed))).length = l.length := by
  induction l with
  | nil => rfl
  | cons e rest ih =>
      have hrest := ih (fun x hx => h x (List.mem_cons_of_mem e hx))
      rcases h e (List.mem_cons_self e rest) with hs | hf
      · rw [List.filter_cons_of_pos (by simp [hs]), List.filter_cons_of_neg (by simp [hs])]
        simp only [List.length_cons]
        omega
      · rw [List.filter_cons_of_neg (by simp [hf]), List.filter_cons_of_pos (by simp [hf])]
        simp only [List.length_cons]
        omega

/-- A list of resolved messages contains no pending message. -/
theorem filter_pending_nil (l : List Email)
    (h : ∀ e ∈ l, e.status = EmailStatus.sent ∨ e.status = EmailStatus.failed) :
    l.filter (fun e => decide (e.status = EmailStatus.pending)) = [] := by
  induction l with
  | nil => rfl
  | cons e rest ih =>
      have hneg : (decide (e.status = EmailStatus.pending)) = false := by
        rcases h e (List.mem_cons_self e rest) with hs | hs <;> simp [hs]
      simp only [List.filter_cons, hneg, Bool.false_eq_true, if_false]
      exact ih (fun x hx => h x (List.mem_cons_of_mem e hx))

/-- C5: starting from a mailer with an empty message table, after a
sequence of sends of which N succeeded and M failed (with the uuid fresh
ids pairwise distinct), stats reports total = N + M, sent = N, failed = M
and pending = 0, where N and M are the counts of sent and failed messages
among the returned results. -/
theorem stats_after_sends (m : Mailer) (entries : List (SendArgs × SendEnv))
    (hempty : m.sent_emails = [])
    (hnodup : (entries.map (fun e => e.2.freshId)).Nodup) :
    (m.send_bulk entries).1.stats =
      { total := ((m.send_bulk entries).2.1.filter
            (fun e => decide (e.status = EmailStatus.sent))).length +
          ((m.send_bulk entries).2.1.filter
            (fun e => decide (e.status = EmailStatus.failed))).length
        sent := ((m.send_bulk entries).2.1.filter
            (fun e => decide (e.status = EmailStatus.sent))).length
        failed := ((m.send_bulk entries).2.1.filter
            (fun e => decide (e.status = EmailStatus.failed))).length
        pending := 0 } := by
  have htable := send_bulk_table entries m hnodup (by rw [hempty]; intro e he; simp)
  have hstatus := send_bulk_status entries m
  simp only [Mailer.stats]
  rw [htable, hempty, List.nil_append]
  have hemails : ((m.send_bulk entries).2.1.map (fun e => (e.id, e))).map (fun p => p.2) =
      (m.send_bulk entries).2.1 := by
    rw [List.map_map]
    simp [Function.comp_def]
  rw [hemails]
  have hpart := length_filter_partition _ hstatus
  have hpend := filter_pending_nil _ hstatus
  simp [Stats.mk.injEq, ← hpart, hpend]

/-- C5 witness: one succeeding and one failing send starting from a fresh
mailer yield total 2, sent 1, failed 1, pending 0. -/
theorem stats_after_sends_witness :
    (Mailer.init (fun e => if e.subject = "A" then Except.ok true else Except.error "down")
        { email := "noreply@example.com" }).sent_emails = [] ∧
    (([(⟨[ToArg.str "a@x"], "A", "", "", {}⟩, ⟨"id1", "t1", 0, 1⟩),
        (⟨[ToArg.str "b@x"], "B", "", "", {}⟩, ⟨"id2", "t2", 2, 3⟩)] :
          List (SendArgs × SendEnv)).map (fun e => e.2.freshId)).Nodup ∧
    ((Mailer.init (fun e => if e.subject = "A" then Except.ok true else Except.error "down")
        { email := "noreply@example.com" }).send_bulk
      ([(⟨[ToArg.str "a@x"], "A", "", "", {}⟩, ⟨"id1", "t1", 0, 1⟩),
        (⟨[ToArg.str "b@x"], "B", "", "", {}⟩, ⟨"id2", "t2", 2, 3⟩)] :
          List (SendArgs × SendEnv))).1.stats =
      { total := 2, sent := 1, failed := 1, pending := 0 } := by
  refine ⟨rfl, by decide, ?_⟩
  exact (stats_after_sends
    (Mailer.init (fun e => if e.subject = "A" then Except.ok true else Except.error "down")
      { email := "noreply@example.com" })
    ([(⟨[ToArg.str "a@x"], "A", "", "", {}⟩, ⟨"id1", "t1", 0, 1⟩),
      (⟨[ToArg.str "b@x"], "B", "", "", {}⟩, ⟨"id2", "t2", 2, 3⟩)] :
        List (SendArgs × SendEnv)) rfl (by decide)).trans (by decide)

/-- C10 witness: registering under the misspelled event "after_snd" on a
fresh mailer changes nothing. -/
theorem add_hook_unknown_event_noop_witness :
    (Mailer.init MockTransport.sendBehavior { email := "noreply@example.com" }).add_hook
        "after_snd" { hid := 1, run := fun _ => Except.ok () } =
      Mailer.init MockTransport.sendBehavior { email := "noreply@example.com" } := by
  exact add_hook_unknown_event_noop
    (Mailer.init MockTransport.sendBehavior { email := "noreply@example.com" })
    "after_snd" { hid := 1, run := fun _ => Except.ok () } rfl (by decide)

end RoadMail
